import Mathlib

/-!
Verification of the offline caching and storage core of the GeoSnap photo
journal (service worker `sw.js` and IndexedDB module `js/storage.js`).

The service worker's asynchronous strategy functions are embedded as pure
functions: the environment is passed in explicitly.  `net : Option Response`
is the outcome of `fetch(request)` (`none` = the fetch promise rejected,
`some r` = it resolved with response `r`, of any status); `openOk : Bool`
is whether `caches.open` succeeds.  A try-block is embedded as an
`Except`-valued function and the surrounding `catch` as the total wrapper
around it, so "the strategy always resolves with a response" corresponds to
the wrapper having result type `CFResult` / `NFResult` rather than `Except`.
The flags `fetched` (was `fetch` invoked?) and `fallbackLookup` (was the
fallback `cache.match` invoked?) instrument the control flow.
-/

namespace GeoSnap

/-- An HTTP response as the strategy code observes it: `status`,
`statusText`, the `Content-Type` header and the body text. -/
structure Response where
  status : Nat
  statusText : String
  contentType : String
  body : String
deriving DecidableEq, Repr

/-- `Response.ok` per the fetch specification: status in the range 200–299.
This is the `networkResponse.ok` test in both strategies. -/
def Response.ok (r : Response) : Bool :=
  decide (200 ≤ r.status) && decide (r.status ≤ 299)

/-- A cache bucket: a finite map from request identity (URL key) to the
stored response snapshot. -/
abbrev Cache : Type := List (String × Response)

/-- `cache.match(request)`: the first entry stored under `k`, if any. -/
def lookupEntry (c : Cache) (k : String) : Option Response :=
  match c with
  | [] => none
  | e :: c => if e.1 == k then some e.2 else lookupEntry c k

/-- `cache.put(request, response)`: replaces any prior entry for the same
request identity. -/
def putEntry (c : Cache) (k : String) (r : Response) : Cache :=
  c.filter (fun e => e.1 != k) ++ [(k, r)]

/-- The constant `STATIC_CACHE` of `sw.js`. -/
def STATIC_CACHE : String := "geosnap-static-v1"

/-- The constant `DYNAMIC_CACHE` of `sw.js`. -/
def DYNAMIC_CACHE : String := "geosnap-dynamic-v1"

/-- The constant `STATIC_ASSETS` of `sw.js`: the install-time manifest. -/
def STATIC_ASSETS : List String :=
  ["/", "/index.html", "/css/main.css", "/css/views.css", "/js/app.js",
   "/js/storage.js", "/js/geolocation.js", "/js/camera.js", "/js/map.js",
   "/manifest.json", "/assets/icons/icon-192x192.png",
   "/assets/icons/icon-512x512.png"]

/-- The synthesized offline response built in the catch blocks of both
strategies: status 503, plain-text body. -/
def offlineResponse : Response :=
  { status := 503
    statusText := "Service Unavailable"
    contentType := "text/plain"
    body := "Offline - Resource not available" }

/-- Result of a strategy run: the response handed to `respondWith`, the
final contents of the bucket, and whether `fetch` was invoked. -/
structure CFResult where
  resp : Response
  cache : Cache
  fetched : Bool
deriving DecidableEq, Repr

/-- The try-block of `cacheFirst`: open the static bucket, look the request
up, on a miss fetch; a 2xx network response is written back (the `put` is
fire-and-forget, so it does not affect the returned response).  An
`Except.error` is a thrown exception, carrying whether `fetch` had been
invoked by that point. -/
def cacheFirstTry (openOk : Bool) (cache : Cache) (key : String)
    (net : Option Response) : Except Bool CFResult :=
  if openOk then
    match lookupEntry cache key with
    | some r => Except.ok ⟨r, cache, false⟩
    | none =>
      match net with
      | some r =>
        Except.ok ⟨r, if r.ok then putEntry cache key r else cache, true⟩
      | none => Except.error true
  else Except.error false

/-- `cacheFirst(request)` of `sw.js`: the try-block wrapped in the catch
that converts any failure into the synthesized 503 response.  The function
is total — the returned promise always resolves with a response. -/
def cacheFirst (openOk : Bool) (cache : Cache) (key : String)
    (net : Option Response) : CFResult :=
  match cacheFirstTry openOk cache key net with
  | Except.ok res => res
  | Except.error fetched => ⟨offlineResponse, cache, fetched⟩

/-- Result of a `networkFirst` run; `fallbackLookup` records whether the
fallback `cache.match` in the inner catch was invoked. -/
structure NFResult where
  resp : Response
  cache : Cache
  fetched : Bool
  fallbackLookup : Bool
deriving DecidableEq, Repr

/-- The try-blocks of `networkFirst`: open the dynamic bucket, fetch; a 2xx
response is written back and any resolved response is returned as-is.  If
the fetch rejects, the inner catch falls back to `cache.match`; a miss
rethrows the network error. -/
def networkFirstTry (openOk : Bool) (cache : Cache) (key : String)
    (net : Option Response) : Except (Bool × Bool) NFResult :=
  if openOk then
    match net with
    | some r =>
      Except.ok ⟨r, if r.ok then putEntry cache key r else cache, true, false⟩
    | none =>
      match lookupEntry cache key with
      | some r => Except.ok ⟨r, cache, true, true⟩
      | none => Except.error (true, true)
  else Except.error (false, false)

/-- `networkFirst(request)` of `sw.js`: the outer catch converts any escaped
failure into the synthesized 503 response. -/
def networkFirst (openOk : Bool) (cache : Cache) (key : String)
    (net : Option Response) : NFResult :=
  match networkFirstTry openOk cache key net with
  | Except.ok res => res
  | Except.error fb => ⟨offlineResponse, cache, fb.1, fb.2⟩

/-- Strategy selected by the fetch listener. -/
inductive Strategy where
  | bypass
  | cacheF
  | networkF
deriving DecidableEq, Repr

/-- Character-list prefix test (the semantics of `String.prototype`'s
`startsWith`, spelled out structurally). -/
def prefixOfChars (pat s : List Char) : Bool :=
  match pat, s with
  | [], _ => true
  | _ :: _, [] => false
  | a :: pat, b :: s => a == b && prefixOfChars pat s

/-- Character-list substring test (the semantics of `String.prototype`'s
`includes`). -/
def containsChars (pat s : List Char) : Bool :=
  match s with
  | [] => pat.isEmpty
  | _ :: rest => prefixOfChars pat s || containsChars pat rest

/-- `url.protocol.startsWith('http')`. -/
def strStarts (s pat : String) : Bool := prefixOfChars pat.data s.data

/-- `url.hostname.includes('tile.openstreetmap.org')`. -/
def strContainsSub (s pat : String) : Bool := containsChars pat.data s.data

/-- The classification performed by the fetch listener of `sw.js`,
evaluated in order: non-GET and non-HTTP(S) requests are bypassed; static
manifest paths, `unpkg.com` and tile hosts are cache-first; everything else
(including the nominatim geocoding host) is network-first. -/
def classifyRequest (method protocol pathname hostname : String) : Strategy :=
  if method != "GET" then Strategy.bypass
  else if !strStarts protocol "http" then Strategy.bypass
  else if STATIC_ASSETS.contains pathname then Strategy.cacheF
  else if hostname == "unpkg.com"
      || strContainsSub hostname "tile.openstreetmap.org" then
    Strategy.cacheF
  else if hostname == "nominatim.openstreetmap.org" then Strategy.networkF
  else Strategy.networkF

/-- Outcome of the install event: whether the promise given to `waitUntil`
resolved (install completed), whether `skipWaiting` was called, and the
static bucket contents. -/
structure InstallResult where
  installCompleted : Bool
  skipWaitingCalled : Bool
  cache : Cache
deriving DecidableEq, Repr

/-- `cache.addAll(paths)`: fetches every path; rejects (`none`) if any fetch
rejects or resolves non-2xx, otherwise stores every response. -/
def addAll (c : Cache) (paths : List String)
    (fetchRes : String → Option Response) : Option Cache :=
  if paths.all (fun p => ((fetchRes p).map Response.ok).getD false) then
    some (paths.foldl
      (fun acc p =>
        match fetchRes p with
        | some r => putEntry acc p r
        | none => acc)
      c)
  else none

/-- The install listener of `sw.js`: open the static bucket, `addAll` the
manifest, then `skipWaiting`; the final `.catch` only logs, so the promise
chain handed to `waitUntil` resolves on every path. -/
def installEvent (openOk : Bool) (c : Cache)
    (fetchRes : String → Option Response) : InstallResult :=
  if openOk then
    match addAll c STATIC_ASSETS fetchRes with
    | some c2 => ⟨true, true, c2⟩
    | none => ⟨true, false, c⟩
  else ⟨true, false, c⟩

/-- The cache storage: the named buckets that exist. -/
abbrev CacheStorage : Type := List (String × Cache)

/-- The activate listener of `sw.js`: enumerate bucket names, delete every
bucket whose name is neither `STATIC_CACHE` nor `DYNAMIC_CACHE`, then claim
clients (the returned `Bool`). -/
def activateEvent (cs : CacheStorage) : CacheStorage × Bool :=
  (cs.filter (fun b => b.1 == STATIC_CACHE || b.1 == DYNAMIC_CACHE), true)

/-!
The Record Store of `js/storage.js`: the `memories` object store of
`GeoSnapDB`, with key path `id` and `autoIncrement: true`.  A `Store` holds
the key-generator state (`nextId`, starting at 1) and the stored records.
The IndexedDB semantics embedded here: `add` fails with a constraint error
if the in-line key already exists, otherwise inserts; `put` replaces an
existing record with the same key or inserts a new one; an explicit numeric
key that is ≥ the generator's next value bumps the generator past it;
`clear` removes all records but does not reset the key generator.  A failed
request aborts the transaction, leaving the store unchanged, so every
operation returns its outcome paired with the (possibly unchanged) store.
-/

/-- The location object stored inside a memory record. -/
structure GeoLocation where
  latitude : Int
  longitude : Int
  locationName : Option String
  accuracy : Option Int
deriving DecidableEq, Repr

/-- A record as stored in the `memories` object store: the auto- or
caller-assigned `id` plus the user data fields. -/
structure StoredMemory where
  id : Nat
  photo : String
  location : Option GeoLocation
  timestamp : Int
  notes : Option String
deriving DecidableEq, Repr

/-- The user-data part of a record: the photo/location/timestamp/notes
tuple, i.e. a record with its identifier erased. -/
structure MemoryData where
  photo : String
  location : Option GeoLocation
  timestamp : Int
  notes : Option String
deriving DecidableEq, Repr

/-- The tuple of a stored record with the identifier erased. -/
def StoredMemory.toData (r : StoredMemory) : MemoryData :=
  ⟨r.photo, r.location, r.timestamp, r.notes⟩

/-- The argument of `saveMemory` / `updateMemory`: a plain object that may
or may not carry an `id` field. -/
structure MemoryInput where
  id : Option Nat
  photo : String
  location : Option GeoLocation
  timestamp : Int
  notes : Option String
deriving DecidableEq, Repr

/-- The tuple of an input object with the identifier erased. -/
def MemoryInput.toData (m : MemoryInput) : MemoryData :=
  ⟨m.photo, m.location, m.timestamp, m.notes⟩

/-- The exported record, as `exportData` lists it, viewed as an argument
for re-insertion through `saveMemory` (the `id` field is present). -/
def storedToInput (r : StoredMemory) : MemoryInput :=
  ⟨some r.id, r.photo, r.location, r.timestamp, r.notes⟩

/-- The `memories` object store: key-generator state and records.  Record
order in the list is irrelevant; reads go through the key-ordered view. -/
structure Store where
  nextId : Nat
  records : List StoredMemory
deriving DecidableEq, Repr

/-- The store as created by `init` on first open: no records, generator
at 1. -/
def emptyStore : Store := ⟨1, []⟩

/-- The error surfaced by a rejected IndexedDB write request. -/
inductive WriteError where
  | constraint
deriving DecidableEq, Repr

/-- `Storage.saveMemory(memory)`: `objectStore.add(memory)`.  With an
explicit `id` the add fails on an existing key and otherwise inserts under
that key (bumping the generator past it); without an `id` the generator
assigns the next key.  Resolves with the key on success. -/
def saveMemory (s : Store) (m : MemoryInput) : Except WriteError Nat × Store :=
  match m.id with
  | some k =>
    if s.records.any (fun r => r.id == k) then
      (Except.error WriteError.constraint, s)
    else
      (Except.ok k,
        ⟨max s.nextId (k + 1),
         s.records ++ [⟨k, m.photo, m.location, m.timestamp, m.notes⟩]⟩)
  | none =>
    (Except.ok s.nextId,
      ⟨s.nextId + 1,
       s.records ++ [⟨s.nextId, m.photo, m.location, m.timestamp, m.notes⟩]⟩)

/-- `Storage.updateMemory(memory)`: `objectStore.put(memory)`, which
replaces the record under an existing key and inserts under a fresh one. -/
def updateMemory (s : Store) (m : MemoryInput) : Except WriteError Nat × Store :=
  match m.id with
  | some k =>
    if s.records.any (fun r => r.id == k) then
      (Except.ok k,
        ⟨s.nextId,
         s.records.map (fun r =>
           if r.id == k then ⟨k, m.photo, m.location, m.timestamp, m.notes⟩
           else r)⟩)
    else
      (Except.ok k,
        ⟨max s.nextId (k + 1),
         s.records ++ [⟨k, m.photo, m.location, m.timestamp, m.notes⟩]⟩)
  | none =>
    (Except.ok s.nextId,
      ⟨s.nextId + 1,
       s.records ++ [⟨s.nextId, m.photo, m.location, m.timestamp, m.notes⟩]⟩)

/-- The ordering `getAll` reads records in: ascending key. -/
def idLe (a b : StoredMemory) : Prop := a.id ≤ b.id

instance : DecidableRel idLe :=
  fun a b => inferInstanceAs (Decidable (a.id ≤ b.id))

instance : IsTotal StoredMemory idLe := ⟨fun a b => Nat.le_total a.id b.id⟩

instance : IsTrans StoredMemory idLe := ⟨fun _ _ _ h h' => le_trans h h'⟩

/-- The ordering of the feed: timestamp descending, the comparator
`(a, b) => b.timestamp - a.timestamp` of `getAllMemories`. -/
def tsGe (a b : StoredMemory) : Prop := b.timestamp ≤ a.timestamp

instance : DecidableRel tsGe :=
  fun a b => inferInstanceAs (Decidable (b.timestamp ≤ a.timestamp))

instance : IsTotal StoredMemory tsGe := ⟨fun a b => le_total b.timestamp a.timestamp⟩

instance : IsTrans StoredMemory tsGe := ⟨fun _ _ _ h h' => le_trans h' h⟩

/-- `Storage.getAllMemories()`: `objectStore.getAll()` yields the records
in ascending key order; the handler then sorts them by timestamp,
newest first. -/
def getAllMemories (s : Store) : List StoredMemory :=
  List.insertionSort tsGe (List.insertionSort idLe s.records)

/-- The metadata envelope built by `exportData` (serialization to JSON text
is not modelled; the envelope fields are). -/
structure ExportEnvelope where
  exportDate : String
  appName : String
  version : String
  totalMemories : Nat
  memories : List StoredMemory
deriving DecidableEq, Repr

/-- `Storage.exportData()`: all memories as returned by `getAllMemories`,
wrapped in the metadata envelope.  `exportDate` (`new Date()`) is passed in
as a parameter. -/
def exportData (s : Store) (now : String) : ExportEnvelope :=
  { exportDate := now
    appName := "GeoSnap"
    version := "1.0"
    totalMemories := (getAllMemories s).length
    memories := getAllMemories s }

/-- `Storage.clearAll()`: `objectStore.clear()` deletes every record; the
key generator is not reset. -/
def clearAll (s : Store) : Store := ⟨s.nextId, []⟩

/-- A sequence of `saveMemory` calls, threaded through the store; returns
the final store and the list of records that were actually created (a
failed call contributes nothing and leaves the store unchanged). -/
def runSaves (s : Store) : List MemoryInput → Store × List StoredMemory
  | [] => (s, [])
  | m :: ms =>
    match saveMemory s m with
    | (Except.ok k, s2) =>
      let rest := runSaves s2 ms
      (rest.1, ⟨k, m.photo, m.location, m.timestamp, m.notes⟩ :: rest.2)
    | (Except.error _, s2) => runSaves s2 ms

/-! ### Helper lemmas -/

/-- Looking an entry up after a `putEntry` finds the new response under the
written key and is otherwise unchanged. -/
theorem lookupEntry_putEntry (c : Cache) (key k : String) (rn : Response) :
    lookupEntry (putEntry c key rn) k =
      if k = key then some rn else lookupEntry c k := by
  induction c with
  | nil =>
    by_cases hk : k = key
    · subst hk
      simp [putEntry, lookupEntry]
    · have hbeq : (key == k) = false := beq_eq_false_iff_ne.mpr (Ne.symm hk)
      simp [putEntry, lookupEntry, hbeq, hk]
  | cons e c ih =>
    by_cases he : e.1 = key
    · have hdrop : putEntry (e :: c) key rn = putEntry c key rn := by
        simp [putEntry, List.filter_cons, he]
      rw [hdrop, ih]
      by_cases hk : k = key
      · simp [hk]
      · have hbeq : (e.1 == k) = false :=
          beq_eq_false_iff_ne.mpr (fun h => hk ((he.symm.trans h).symm))
        simp [lookupEntry, hbeq, hk]
    · have hkeep : putEntry (e :: c) key rn = e :: putEntry c key rn := by
        simp [putEntry, List.filter_cons, he]
      rw [hkeep]
      by_cases hek : e.1 = k
      · have hkk : ¬ k = key := fun h => he (hek.trans h)
        simp [lookupEntry, hek, hkk]
      · simp [lookupEntry, hek, ih]

/-- An entry readable from a bucket after a 2xx write was either already
there or is the (successful) written response. -/
theorem lookup_after_ok_put (cache : Cache) (key k : String) (rn r : Response)
    (hok : rn.ok = true) (h : lookupEntry (putEntry cache key rn) k = some r) :
    lookupEntry cache k = some r ∨ r.ok = true := by
  rw [lookupEntry_putEntry] at h
  by_cases hk : k = key
  · right
    rw [if_pos hk] at h
    cases h
    exact hok
  · left
    rwa [if_neg hk] at h

/-! ### Claims -/

/-- C1: for every intercepted GET request, if both the network fetch and
the cache lookup fail, each strategy still resolves with the synthesized
503 plain-text response.  `cacheFirst` and `networkFirst` are total
functions into `CFResult` / `NFResult` (never `Except`), which embeds "no
exception or rejected promise ever escapes a strategy function"; this holds
whether the bucket opens or not. -/
theorem c1_both_fail_synthesized_503 (openOk : Bool) (cache : Cache)
    (key : String) (hmiss : lookupEntry cache key = none) :
    (cacheFirst openOk cache key none).resp = offlineResponse ∧
    (networkFirst openOk cache key none).resp = offlineResponse ∧
    (cacheFirst openOk cache key none).resp.status = 503 ∧
    (cacheFirst openOk cache key none).resp.contentType = "text/plain" ∧
    (networkFirst openOk cache key none).resp.status = 503 ∧
    (networkFirst openOk cache key none).resp.contentType = "text/plain" := by
  cases openOk <;>
    simp [cacheFirst, cacheFirstTry, networkFirst, networkFirstTry, hmiss,
      offlineResponse]

/-- Witness for C1 at a concrete request: empty bucket, rejected fetch. -/
theorem c1_both_fail_synthesized_503_witness :
    lookupEntry ([] : Cache) "/api/data" = none ∧
    (cacheFirst true ([] : Cache) "/api/data" none).resp = offlineResponse ∧
    (networkFirst true ([] : Cache) "/api/data" none).resp = offlineResponse :=
  ⟨rfl, (c1_both_fail_synthesized_503 true [] "/api/data" rfl).1,
    (c1_both_fail_synthesized_503 true [] "/api/data" rfl).2.1⟩

/-- C3: a request classified cache-first whose identity has an entry in the
static bucket is answered with the stored entry verbatim, the bucket is
unchanged, and `fetch` is never invoked — whatever the network would have
returned. -/
theorem c3_cache_hit_no_network (method protocol pathname hostname : String)
    (cache : Cache) (key : String) (net : Option Response) (r : Response)
    (_hclass : classifyRequest method protocol pathname hostname = Strategy.cacheF)
    (hhit : lookupEntry cache key = some r) :
    cacheFirst true cache key net = ⟨r, cache, false⟩ := by
  simp [cacheFirst, cacheFirstTry, hhit]

/-- Witness for C3: `/index.html` is classified cache-first and its cached
copy is served without touching the network. -/
theorem c3_cache_hit_no_network_witness :
    classifyRequest "GET" "https:" "/index.html" "localhost" = Strategy.cacheF ∧
    lookupEntry [("/index.html", ⟨200, "OK", "text/html", "<html>"⟩)]
      "/index.html" = some ⟨200, "OK", "text/html", "<html>"⟩ ∧
    cacheFirst true [("/index.html", ⟨200, "OK", "text/html", "<html>"⟩)]
      "/index.html" none =
      ⟨⟨200, "OK", "text/html", "<html>"⟩,
       [("/index.html", ⟨200, "OK", "text/html", "<html>"⟩)], false⟩ :=
  ⟨by decide, by decide,
    c3_cache_hit_no_network "GET" "https:" "/index.html" "localhost" _ _ none _
      (by decide) (by decide)⟩

/-- C10: a network fetch that resolves with a non-2xx response is returned
to the caller unmodified by both strategies: it is not written to the
bucket, not replaced by the synthesized 503, and in the network-first path
the fallback cache lookup is not triggered. -/
theorem c10_non_2xx_passthrough (cache : Cache) (key : String) (r : Response)
    (hnotok : r.ok = false) (hmiss : lookupEntry cache key = none) :
    cacheFirst true cache key (some r) = ⟨r, cache, true⟩ ∧
    networkFirst true cache key (some r) = ⟨r, cache, true, false⟩ := by
  constructor <;>
    simp [cacheFirst, cacheFirstTry, networkFirst, networkFirstTry, hmiss,
      hnotok]

/-- Witness for C10 at a concrete 404 response. -/
theorem c10_non_2xx_passthrough_witness :
    (⟨404, "Not Found", "text/html", ""⟩ : Response).ok = false ∧
    lookupEntry ([] : Cache) "/missing" = none ∧
    cacheFirst true ([] : Cache) "/missing"
        (some ⟨404, "Not Found", "text/html", ""⟩) =
      ⟨⟨404, "Not Found", "text/html", ""⟩, [], true⟩ ∧
    networkFirst true ([] : Cache) "/missing"
        (some ⟨404, "Not Found", "text/html", ""⟩) =
      ⟨⟨404, "Not Found", "text/html", ""⟩, [], true, false⟩ :=
  ⟨by decide, rfl,
    (c10_non_2xx_passthrough [] "/missing" _ (by decide) rfl).1,
    (c10_non_2xx_passthrough [] "/missing" _ (by decide) rfl).2⟩

/-- C6: activation keeps a bucket (with its contents untouched) exactly
when its name is the current static or dynamic bucket name, deleting every
other bucket; afterwards clients are claimed. -/
theorem c6_activation_prunes_old_buckets (cs : CacheStorage) (name : String)
    (c : Cache) :
    ((name, c) ∈ (activateEvent cs).1 ↔
      (name, c) ∈ cs ∧ (name = STATIC_CACHE ∨ name = DYNAMIC_CACHE)) ∧
    (activateEvent cs).2 = true := by
  constructor
  · simp [activateEvent, List.mem_filter]
  · rfl

/-- C5: evaluation of the install listener at a failing manifest fetch.
`cache.addAll` rejects, the trailing `.catch` swallows the rejection, so
the promise handed to `event.waitUntil` resolves: the install phase
completes successfully even though a manifest fetch failed — only the
`skipWaiting` takeover signal is skipped. -/
theorem c5_install_failure_swallowed :
    (installEvent true [] (fun _ => none)).installCompleted = true ∧
    (installEvent true [] (fun _ => none)).skipWaitingCalled = false :=
  ⟨rfl, rfl⟩

/-- C7: in every execution of either strategy, an entry readable from the
resulting bucket was either already in the bucket before the run or is a
successful (2xx) response — non-2xx responses are never written. -/
theorem c7_only_2xx_written (openOk : Bool) (cache : Cache) (key k : String)
    (net : Option Response) (r : Response) :
    (lookupEntry (cacheFirst openOk cache key net).cache k = some r →
      lookupEntry cache k = some r ∨ r.ok = true) ∧
    (lookupEntry (networkFirst openOk cache key net).cache k = some r →
      lookupEntry cache k = some r ∨ r.ok = true) := by
  constructor
  · intro h
    cases openOk with
    | false => exact Or.inl h
    | true =>
      cases hl : lookupEntry cache key with
      | some rc =>
        simp only [cacheFirst, cacheFirstTry, if_true, hl] at h
        exact Or.inl h
      | none =>
        cases net with
        | none =>
          simp only [cacheFirst, cacheFirstTry, if_true, hl] at h
          exact Or.inl h
        | some rn =>
          simp only [cacheFirst, cacheFirstTry, if_true, hl] at h
          cases hok : rn.ok with
          | false =>
            rw [hok] at h
            simp at h
            exact Or.inl h
          | true =>
            rw [hok] at h
            simp at h
            exact lookup_after_ok_put cache key k rn r hok h
  · intro h
    cases openOk with
    | false => exact Or.inl h
    | true =>
      cases net with
      | none =>
        cases hl : lookupEntry cache key with
        | some rc =>
          simp only [networkFirst, networkFirstTry, if_true, hl] at h
          exact Or.inl h
        | none =>
          simp only [networkFirst, networkFirstTry, if_true, hl] at h
          exact Or.inl h
      | some rn =>
        simp only [networkFirst, networkFirstTry, if_true] at h
        cases hok : rn.ok with
        | false =>
          rw [hok] at h
          simp at h
          exact Or.inl h
        | true =>
          rw [hok] at h
          simp at h
          exact lookup_after_ok_put cache key k rn r hok h

/-- Witness for C7: the entry readable after a run that cached a 200
response is indeed a 2xx response. -/
theorem c7_only_2xx_written_witness :
    lookupEntry (cacheFirst true ([] : Cache) "/a"
        (some ⟨200, "OK", "text/css", "x"⟩)).cache "/a" =
      some ⟨200, "OK", "text/css", "x"⟩ ∧
    (lookupEntry ([] : Cache) "/a" = some ⟨200, "OK", "text/css", "x"⟩ ∨
      (⟨200, "OK", "text/css", "x"⟩ : Response).ok = true) :=
  ⟨by decide,
    (c7_only_2xx_written true [] "/a" "/a" (some ⟨200, "OK", "text/css", "x"⟩)
      ⟨200, "OK", "text/css", "x"⟩).1 (by decide)⟩

/-- A sequence of `saveMemory` calls appends exactly the successfully
created records to the store, in order. -/
theorem runSaves_records (ms : List MemoryInput) :
    ∀ s : Store, ((runSaves s ms).1).records = s.records ++ (runSaves s ms).2 := by
  induction ms with
  | nil => intro s; simp [runSaves]
  | cons m ms ih =>
    intro s
    cases hm : m.id with
    | some k =>
      by_cases hk : s.records.any (fun r => r.id == k) = true
      · simp [runSaves, saveMemory, hm, hk, ih]
      · simp [runSaves, saveMemory, hm, hk, ih]
    | none =>
      simp [runSaves, saveMemory, hm, ih]

/-- C2: running any sequence of `saveMemory` calls from the empty store and
then calling `getAllMemories` returns a permutation of exactly the records
that were created — none lost, none duplicated — sorted by timestamp
descending; on the empty store `getAllMemories` returns `[]`. -/
theorem c2_create_then_readAll (ms : List MemoryInput) :
    (getAllMemories ((runSaves emptyStore ms).1)).Perm ((runSaves emptyStore ms).2) ∧
    List.Sorted tsGe (getAllMemories ((runSaves emptyStore ms).1)) ∧
    getAllMemories emptyStore = [] := by
  refine ⟨?_, List.sorted_insertionSort tsGe _, rfl⟩
  have h1 : (getAllMemories ((runSaves emptyStore ms).1)).Perm
      ((runSaves emptyStore ms).1).records :=
    (List.perm_insertionSort tsGe _).trans (List.perm_insertionSort idLe _)
  have h2 := runSaves_records ms emptyStore
  rw [h2] at h1
  simpa [emptyStore] using h1

/-- C9: `saveMemory` never replaces an existing record: a record carrying
an `id` equal to an existing record's identifier is rejected with a
constraint error and the store is unchanged. -/
theorem c9_create_never_overwrites (s : Store) (m : MemoryInput) (k : Nat)
    (hid : m.id = some k) (hex : ∃ r ∈ s.records, r.id = k) :
    (saveMemory s m).1 = Except.error WriteError.constraint ∧
    (saveMemory s m).2 = s := by
  have hany : s.records.any (fun r => r.id == k) = true := by
    obtain ⟨r, hr, hrk⟩ := hex
    exact List.any_eq_true.2 ⟨r, hr, by simp [hrk]⟩
  simp [saveMemory, hid, hany]

/-- Witness for C9: saving a record whose `id` is already taken fails and
leaves the store as it was. -/
theorem c9_create_never_overwrites_witness :
    (⟨some 1, "q", none, 200, none⟩ : MemoryInput).id = some 1 ∧
    (∃ r ∈ (⟨2, [⟨1, "p", none, 100, none⟩]⟩ : Store).records, r.id = 1) ∧
    ((saveMemory ⟨2, [⟨1, "p", none, 100, none⟩]⟩
        ⟨some 1, "q", none, 200, none⟩).1 = Except.error WriteError.constraint ∧
      (saveMemory ⟨2, [⟨1, "p", none, 100, none⟩]⟩
        ⟨some 1, "q", none, 200, none⟩).2 = ⟨2, [⟨1, "p", none, 100, none⟩]⟩) :=
  ⟨rfl, by decide,
    c9_create_never_overwrites ⟨2, [⟨1, "p", none, 100, none⟩]⟩
      ⟨some 1, "q", none, 200, none⟩ 1 rfl (by decide)⟩

/-- C4 counterexample: `updateMemory` on an identifier absent from the
store does not fail — `objectStore.put` upserts — so the call succeeds and
the store is changed, contradicting the claim that it fails with a
`WriteError` and leaves the store unchanged. -/
theorem c4_update_missing_id_counterexample :
    (updateMemory ⟨2, [⟨1, "p", none, 100, none⟩]⟩
        ⟨some 5, "q", none, 200, none⟩).1 = Except.ok 5 ∧
    (updateMemory ⟨2, [⟨1, "p", none, 100, none⟩]⟩
        ⟨some 5, "q", none, 200, none⟩).2 ≠ ⟨2, [⟨1, "p", none, 100, none⟩]⟩ := by
  constructor
  · rfl
  · decide

/-- C4 amended: `updateMemory` on a record whose identifier does not exist
in the store succeeds (resolving with that identifier) and inserts the
record — the upsert semantics of `objectStore.put`. -/
theorem c4_amended_update_upserts (s : Store) (m : MemoryInput) (k : Nat)
    (hid : m.id = some k) (habs : ∀ r ∈ s.records, r.id ≠ k) :
    (updateMemory s m).1 = Except.ok k ∧
    (updateMemory s m).2.records =
      s.records ++ [⟨k, m.photo, m.location, m.timestamp, m.notes⟩] := by
  have hany : s.records.any (fun r => r.id == k) = false := by
    rw [List.any_eq_false]
    intro r hr
    simp [habs r hr]
  simp [updateMemory, hid, hany]

/-- Witness for C4's amended claim at a concrete store. -/
theorem c4_amended_update_upserts_witness :
    (⟨some 5, "q", none, 200, none⟩ : MemoryInput).id = some 5 ∧
    (∀ r ∈ (⟨2, [⟨1, "p", none, 100, none⟩]⟩ : Store).records, r.id ≠ 5) ∧
    ((updateMemory ⟨2, [⟨1, "p", none, 100, none⟩]⟩
        ⟨some 5, "q", none, 200, none⟩).1 = Except.ok 5 ∧
      (updateMemory ⟨2, [⟨1, "p", none, 100, none⟩]⟩
        ⟨some 5, "q", none, 200, none⟩).2.records =
        [⟨1, "p", none, 100, none⟩] ++ [⟨5, "q", none, 200, none⟩]) :=
  ⟨rfl, by decide,
    c4_amended_update_upserts ⟨2, [⟨1, "p", none, 100, none⟩]⟩
      ⟨some 5, "q", none, 200, none⟩ 5 rfl (by decide)⟩

/-- Re-inserting records with pairwise-distinct explicit identifiers, none
of which is present in the store, succeeds for every record: the store
gains exactly those records and all of them are reported created. -/
theorem runSaves_fresh (rs : List StoredMemory) :
    ∀ s : Store, (rs.map StoredMemory.id).Nodup →
    (∀ r ∈ rs, ∀ r' ∈ s.records, r'.id ≠ r.id) →
    ((runSaves s (rs.map storedToInput)).1).records = s.records ++ rs ∧
    (runSaves s (rs.map storedToInput)).2 = rs := by
  induction rs with
  | nil => intro s _ _; simp [runSaves]
  | cons r rs ih =>
    intro s hnd hdisj
    have hany : s.records.any (fun r' => r'.id == r.id) = false := by
      rw [List.any_eq_false]
      intro r' hr'
      simp [hdisj r (List.mem_cons_self r rs) r' hr']
    have hstep : saveMemory s (storedToInput r) =
        (Except.ok r.id,
          ⟨max s.nextId (r.id + 1), s.records ++ [r]⟩) := by
      simp [saveMemory, storedToInput, hany]
    have hnd' : (rs.map StoredMemory.id).Nodup := (List.nodup_cons.1 (by simpa using hnd)).2
    have hhead : r.id ∉ rs.map StoredMemory.id := (List.nodup_cons.1 (by simpa using hnd)).1
    have hdisj' : ∀ x ∈ rs, ∀ r' ∈ (s.records ++ [r]), r'.id ≠ x.id := by
      intro x hx r' hr'
      rcases List.mem_append.1 hr' with h | h
      · exact hdisj x (List.mem_cons_of_mem r hx) r' h
      · have : r' = r := by simpa using h
        subst this
        intro hcontra
        exact hhead (hcontra ▸ List.mem_map_of_mem StoredMemory.id hx)
    have := ih ⟨max s.nextId (r.id + 1), s.records ++ [r]⟩ hnd' hdisj'
    constructor
    · simp only [List.map_cons, runSaves, hstep]
      rw [this.1]
      simp
    · simp only [List.map_cons, runSaves, hstep]
      rw [this.2]
      simp [storedToInput]

/-- C8: round-trip.  If every record listed by `exportData` is re-inserted
via `saveMemory` into a freshly cleared store, a subsequent
`getAllMemories` is, as a multiset of photo/location/timestamp/notes
tuples, equal to the original store's `getAllMemories` output (here the
identifiers are even preserved, so in particular the tuples match after
ignoring identifiers).  The hypothesis that stored identifiers are
pairwise distinct is an invariant of the keyed object store. -/
theorem c8_export_clear_reinsert_round_trip (s : Store) (date : String)
    (hnodup : (s.records.map StoredMemory.id).Nodup) :
    ((getAllMemories ((runSaves (clearAll s)
        (((exportData s date).memories).map storedToInput)).1)).map
      StoredMemory.toData).Perm
      ((getAllMemories s).map StoredMemory.toData) := by
  have hexp : (exportData s date).memories = getAllMemories s := rfl
  rw [hexp]
  have hperm : (getAllMemories s).Perm s.records :=
    (List.perm_insertionSort tsGe _).trans (List.perm_insertionSort idLe _)
  have hnd : ((getAllMemories s).map StoredMemory.id).Nodup :=
    ((hperm.map StoredMemory.id).nodup_iff).2 hnodup
  have hdisj : ∀ r ∈ getAllMemories s, ∀ r' ∈ (clearAll s).records,
      r'.id ≠ r.id := by
    intro r _ r' hr'
    simp [clearAll] at hr'
  have hrun := runSaves_fresh (getAllMemories s) (clearAll s) hnd hdisj
  have h1 : (getAllMemories ((runSaves (clearAll s)
      ((getAllMemories s).map storedToInput)).1)).Perm
      ((runSaves (clearAll s) ((getAllMemories s).map storedToInput)).1).records :=
    (List.perm_insertionSort tsGe _).trans (List.perm_insertionSort idLe _)
  rw [hrun.1] at h1
  simp only [clearAll, List.nil_append] at h1
  exact h1.map StoredMemory.toData

/-- Witness for C8 at a concrete two-record store. -/
theorem c8_export_clear_reinsert_round_trip_witness :
    ((⟨3, [⟨1, "a", none, 100, none⟩, ⟨2, "b", none, 50, none⟩]⟩ : Store).records.map
      StoredMemory.id).Nodup ∧
    ((getAllMemories ((runSaves
        (clearAll ⟨3, [⟨1, "a", none, 100, none⟩, ⟨2, "b", none, 50, none⟩]⟩)
        (((exportData ⟨3, [⟨1, "a", none, 100, none⟩, ⟨2, "b", none, 50, none⟩]⟩
            "2026-01-01").memories).map storedToInput)).1)).map
      StoredMemory.toData).Perm
      ((getAllMemories
        ⟨3, [⟨1, "a", none, 100, none⟩, ⟨2, "b", none, 50, none⟩]⟩).map
        StoredMemory.toData) :=
  ⟨by decide,
    c8_export_clear_reinsert_round_trip
      ⟨3, [⟨1, "a", none, 100, none⟩, ⟨2, "b", none, 50, none⟩]⟩ "2026-01-01"
      (by decide)⟩

end GeoSnap
